import Mathlib

/-!
Verification development for the shopee/momo web crawler (src/main.py).

The Python source is shallowly embedded: each fallible operation returns an
Except value whose error component models a raised selenium exception, and
Python truthiness tests (if arg: ...) are modelled explicitly on optional
arguments.  Opaque runtime objects (the chrome driver, WebElement references)
are represented by natural-number identifiers; the page content consulted by a
lookup is passed in as an explicit environment function.
-/

set_option autoImplicit false

/-- Equality of embedded fallible results is decidable, so concrete runs can
be checked by evaluation. -/
instance {ε α : Type} [DecidableEq ε] [DecidableEq α] : DecidableEq (Except ε α) :=
  fun a b =>
    match a, b with
    | Except.ok x, Except.ok y =>
        if h : x = y then Decidable.isTrue (by rw [h])
        else Decidable.isFalse (by intro hc; cases hc; exact h rfl)
    | Except.error x, Except.error y =>
        if h : x = y then Decidable.isTrue (by rw [h])
        else Decidable.isFalse (by intro hc; cases hc; exact h rfl)
    | Except.ok _, Except.error _ => Decidable.isFalse (by intro hc; cases hc)
    | Except.error _, Except.ok _ => Decidable.isFalse (by intro hc; cases hc)

/-- Fault kinds raised by the selenium layer, as caught in src/main.py:
NoSuchElementException, TimeoutException, StaleElementReferenceException,
ElementClickInterceptedException, and a payload-carrying catch-all for any
other exception. -/
inductive Fault where
  | noSuchElement
  | timeout
  | staleReference
  | clickIntercepted
  | other (n : Nat)
deriving DecidableEq, Repr

/-- The trap functions defined in the program: ShopeeWeb._trapTimeout,
ShopeeWeb._trapNoSuchElement, ShopeeWeb._trapWaitGet and MomoWeb._raise
(MomoWeb also repeats _trapTimeout verbatim). -/
inductive Policy where
  | trapTimeout
  | trapNoSuchElement
  | trapWaitGet
  | momoRaise
deriving DecidableEq, Repr

/-- Wait conditions used with WebDriverWait (expected_conditions). -/
inductive Cond where
  | presenceOne
  | presenceAll
  | visibleAny
deriving DecidableEq, Repr

/-- Embedding of the BoundElement class: the locator fields set by reset and
reset_condition, the bound flag, and the underlying WebElement identifier
(none while unbound; the WebElement constructor is called with id None). -/
structure BoundElement where
  driver : Nat
  method : String
  target : String
  condition : Cond
  timeout : Nat
  message : String
  trapFunction : Option Policy
  bound : Bool
  elemId : Option Nat
deriving DecidableEq, Repr

/-- Python truthiness guard on an optional string argument: the statement
if arg: self.x = arg keeps the old value when the argument is absent (None)
or the empty string. -/
def pyKeepStr (src : String) (o : Option String) : String :=
  match o with
  | some s => if s = "" then src else s
  | none => src

/-- Python truthiness guard on an optional integer argument: 0 is falsy, so
if arg: self.x = arg keeps the old value for None and for 0. -/
def pyKeepNat (src : Nat) (o : Option Nat) : Nat :=
  match o with
  | some n => if n = 0 then src else n
  | none => src

/-- Python truthiness guard on an optional object argument (driver, condition
function): every such object is truthy, so only None keeps the old value. -/
def pyKeepObj {α : Type} (src : α) (o : Option α) : α :=
  o.getD src

/-- Python truthiness guard on an optional trap-function argument: a callable
is truthy, None keeps the old value. -/
def pyKeepTrap (src : Option Policy) (o : Option Policy) : Option Policy :=
  match o with
  | some p => some p
  | none => src

/-- BoundElement.reset: re-runs the WebElement constructor with id None,
clears the bound flag, and stores driver, method and target. -/
def BoundElement.reset (e : BoundElement) (driver : Nat) (method target : String) :
    BoundElement :=
  { e with driver := driver, method := method, target := target,
           bound := false, elemId := none }

/-- BoundElement.reset_condition: re-runs the WebElement constructor with id
None, clears the bound flag, and stores condition, timeout, message and
trapFunction (all assigned unconditionally). -/
def BoundElement.reset_condition (e : BoundElement) (condition : Cond)
    (timeout : Nat) (message : String) (trapFunction : Option Policy) :
    BoundElement :=
  { e with elemId := none, bound := false, condition := condition,
           timeout := timeout, message := message, trapFunction := trapFunction }

/-- An attribute-free object, used as the receiver on which the BoundElement
constructor runs (in Python the instance starts with no attributes; every
field below is overwritten before it is ever read). -/
def BoundElement.blank : BoundElement :=
  ⟨0, "", "", Cond.presenceOne, 0, "", none, false, none⟩

/-- BoundElement.__init__: reset followed by reset_condition. -/
def BoundElement.init (driver : Nat) (method target : String) (condition : Cond)
    (timeout : Nat) (message : String) (trapFunction : Option Policy) :
    BoundElement :=
  (BoundElement.blank.reset driver method target).reset_condition
    condition timeout message trapFunction

/-- BoundElement.reinit: target is assigned unconditionally; every other
parameter is guarded by a Python truthiness test (if arg: self.x = arg);
finally the bound flag is cleared.  The underlying WebElement identifier is
not touched. -/
def BoundElement.reinit (e : BoundElement) (target : String)
    (method : Option String) (driver : Option Nat) (condition : Option Cond)
    (timeout : Option Nat) (message : Option String)
    (trapFunction : Option Policy) : BoundElement :=
  { e with target := target,
           method := pyKeepStr e.method method,
           driver := pyKeepObj e.driver driver,
           condition := pyKeepObj e.condition condition,
           timeout := pyKeepNat e.timeout timeout,
           message := pyKeepStr e.message message,
           trapFunction := pyKeepTrap e.trapFunction trapFunction,
           bound := false }

/-- BoundElement.spawn_from: builds a fresh element through __init__ copying
every locator field of the base; when an already-resolved WebElement is
passed, its identifier is installed and the bound flag is set. -/
def BoundElement.spawn_from (base : BoundElement) (element : Option Nat) :
    BoundElement :=
  let newElement := BoundElement.init base.driver base.method base.target
    base.condition base.timeout base.message base.trapFunction
  match element with
  | some eid => { newElement with elemId := some eid, bound := true }
  | none => newElement

/-- BoundElement.spawn: spawn_from(self) followed by reinit with the
overriding arguments. -/
def BoundElement.spawn (e : BoundElement) (target : String)
    (method : Option String) (driver : Option Nat) (condition : Option Cond)
    (timeout : Option Nat) (message : Option String)
    (trapFunction : Option Policy) : BoundElement :=
  (BoundElement.spawn_from e none).reinit target method driver condition
    timeout message trapFunction

/-- Python values returned by the guarded lookup methods: a boolean fallback,
a raw WebElement, a list of raw WebElements, a BoundElement, or a list of
BoundElements. -/
inductive PyVal where
  | bool (b : Bool)
  | str (s : String)
  | elem (id : Nat)
  | elems (ids : List Nat)
  | handle (h : BoundElement)
  | handles (hs : List BoundElement)
deriving DecidableEq, Repr

/-- Run one of the trap functions on a caught fault.  Each returns False for
the fault kinds it handles and re-raises the identical exception otherwise;
MomoWeb._raise always re-raises. -/
def Policy.run : Policy → Fault → Except Fault PyVal
  | Policy.trapTimeout, Fault.timeout => Except.ok (PyVal.bool false)
  | Policy.trapTimeout, e => Except.error e
  | Policy.trapNoSuchElement, Fault.noSuchElement => Except.ok (PyVal.bool false)
  | Policy.trapNoSuchElement, Fault.staleReference => Except.ok (PyVal.bool false)
  | Policy.trapNoSuchElement, e => Except.error e
  | Policy.trapWaitGet, Fault.timeout => Except.ok (PyVal.bool false)
  | Policy.trapWaitGet, Fault.noSuchElement => Except.ok (PyVal.bool false)
  | Policy.trapWaitGet, e => Except.error e
  | Policy.momoRaise, e => Except.error e

/-- The fault kinds each trap function converts to a fallback value. -/
def Policy.handles : Policy → Fault → Bool
  | Policy.trapTimeout, Fault.timeout => true
  | Policy.trapNoSuchElement, Fault.noSuchElement => true
  | Policy.trapNoSuchElement, Fault.staleReference => true
  | Policy.trapWaitGet, Fault.timeout => true
  | Policy.trapWaitGet, Fault.noSuchElement => true
  | _, _ => false

/-- The trapMethod decorator: if no trapFunction keyword is supplied, a
callable trapFunction attribute of the receiver is used as the default; when
a trap function is in effect the wrapped call runs under it and any raised
fault is passed to it; with no trap function the call runs unguarded. -/
def trapCall (callerTrap : Option Policy) (receiverTrap : Option Policy)
    (op : Except Fault PyVal) : Except Fault PyVal :=
  let tf := match callerTrap with
            | some t => some t
            | none => receiverTrap
  match tf with
  | some t =>
      match op with
      | Except.ok r => Except.ok r
      | Except.error e => Policy.run t e
  | none => op

/-- BoundElement.bind_result: a returned list becomes a list of bound spawns,
a returned WebElement becomes one bound spawn, anything else passes through. -/
def BoundElement.bind_result (e : BoundElement) (result : PyVal) : PyVal :=
  match result with
  | PyVal.elems ids => PyVal.handles (ids.map (fun i => e.spawn_from (some i)))
  | PyVal.elem i => PyVal.handle (e.spawn_from (some i))
  | r => r

/-- Body of BoundElement.find: target and method default to the stored fields
under Python truthiness; the single-element lookup raises NoSuchElement when
the query matches nothing, and a found element is bound through bind_result.
The environment maps (method, target) to the element the page offers. -/
def BoundElement.findRaw (e : BoundElement) (target method : Option String)
    (env : String → String → Option Nat) : Except Fault PyVal :=
  let t := pyKeepStr e.target target
  let m := pyKeepStr e.method method
  match env m t with
  | some eid => Except.ok (e.bind_result (PyVal.elem eid))
  | none => Except.error Fault.noSuchElement

/-- BoundElement.find as decorated by trapMethod. -/
def BoundElement.find (e : BoundElement) (callerTrap : Option Policy)
    (target method : Option String) (env : String → String → Option Nat) :
    Except Fault PyVal :=
  trapCall callerTrap e.trapFunction (e.findRaw target method env)

/-- Body of BoundElement.find_all: find_elements returns a (possibly empty)
list and raises nothing for an absent element. -/
def BoundElement.find_allRaw (e : BoundElement) (target method : Option String)
    (envAll : String → String → List Nat) : Except Fault PyVal :=
  let t := pyKeepStr e.target target
  let m := pyKeepStr e.method method
  Except.ok (e.bind_result (PyVal.elems (envAll m t)))

/-- BoundElement.find_all as decorated by trapMethod. -/
def BoundElement.find_all (e : BoundElement) (callerTrap : Option Policy)
    (target method : Option String) (envAll : String → String → List Nat) :
    Except Fault PyVal :=
  trapCall callerTrap e.trapFunction (e.find_allRaw target method envAll)

/-- The guardFindElement decorator used on the Crawler get* methods: a raised
NoSuchElementException becomes False; every other outcome passes through. -/
def guardFind (op : Except Fault PyVal) : Except Fault PyVal :=
  match op with
  | Except.error Fault.noSuchElement => Except.ok (PyVal.bool false)
  | r => r

/-- Crawler.getByClass (and getByName, which differs only in the lookup
strategy): a single-element lookup guarded by guardFindElement. -/
def Crawler.getByClass (env : String → Option Nat) (selector : String) :
    Except Fault PyVal :=
  guardFind (match env selector with
             | some i => Except.ok (PyVal.elem i)
             | none => Except.error Fault.noSuchElement)

/-- Crawler.getAllByClass (and getAllByName): find_elements returns a list,
empty when the query matches nothing, and the guard leaves it unchanged. -/
def Crawler.getAllByClass (env : String → List Nat) (selector : String) :
    Except Fault PyVal :=
  guardFind (Except.ok (PyVal.elems (env selector)))

/-- Python runtime errors relevant to catText: indexing an empty string. -/
inductive PyErr where
  | indexError
deriving DecidableEq, Repr

/-- Python text.replace applied to remove every newline character. -/
def pyStripNewlines (s : String) : String :=
  String.mk (s.data.filter (fun ch => ch ≠ '\n'))

/-- Python text[-1]: the last character, raising IndexError on the empty
string. -/
def strLast (s : String) : Except PyErr Char :=
  match s.data.getLast? with
  | some c => Except.ok c
  | none => Except.error PyErr.indexError

/-- The for-loop of catText: each element contributes its newline-stripped
text; with delimit set, the running text is indexed at -1 (raising on an
empty running text) and a fullwidth comma is appended unless the text already
ends in fullwidth punctuation. -/
def catTextAux (delimit : Bool) : List String → String → Except PyErr String
  | [], text => Except.ok text
  | t :: rest, text =>
      let text := text ++ pyStripNewlines t
      if delimit then
        match strLast text with
        | Except.error e => Except.error e
        | Except.ok c =>
            if c ∉ ['，', '！', '。'] then catTextAux delimit rest (text ++ ("，"))
            else catTextAux delimit rest text
      else catTextAux delimit rest text

/-- catText: run the loop, then index the accumulated text at -1 (raising
IndexError when it is empty) and drop a trailing fullwidth comma. -/
def catText (elements : List String) (delimit : Bool) : Except PyErr String :=
  match catTextAux delimit elements "" with
  | Except.error e => Except.error e
  | Except.ok text =>
      match strLast text with
      | Except.error e => Except.error e
      | Except.ok c =>
          if c = '，' then Except.ok (text.dropRight 1) else Except.ok text

/-- Outcome of clicking the claim button of one coupon. -/
inductive ClickOutcome where
  | ok
  | intercepted (fallbackRaises : Bool)
  | otherError
deriving DecidableEq, Repr

/-- One coupon tile as the page presents it to the claim closure inside
ShopeeWeb.claimCoupon: whether the guarded sub-lookups succeed, the term
texts, whether the button text contains the go-browse marker, the click
outcome, and whether some element access raises an untrapped exception (the
page is dynamic, so even reading element.text may throw). -/
structure Coupon where
  rawRaises : Bool
  hasDetails : Bool
  hasName : Bool
  termTexts : List String
  hasButton : Bool
  goShopping : Bool
  click : ClickOutcome
  hasSvgText : Bool
deriving DecidableEq, Repr

/-- The claim closure of ShopeeWeb.claimCoupon for a single coupon.
Returns the Python return value (ok) or an escaped exception (error), paired
with the number of ActionChains fallback attempts made.  A click intercepted
by an overlay triggers exactly one ActionChains fallback; if that fallback
succeeds the function falls through to return True; any other click error is
printed and the function still returns True. -/
def claimOne (c : Coupon) : Except Unit Bool × Nat :=
  if c.rawRaises then (Except.error (), 0)
  else if !c.hasDetails then (Except.ok false, 0)
  else if !c.hasName then (Except.ok false, 0)
  else
    let termsRes : Except PyErr String :=
      if c.termTexts.isEmpty then Except.ok "" else catText c.termTexts false
    match termsRes with
    | Except.error _ => (Except.error (), 0)
    | Except.ok _ =>
        if c.hasButton then
          if c.goShopping then (Except.ok true, 0)
          else
            match c.click with
            | ClickOutcome.ok => (Except.ok true, 0)
            | ClickOutcome.intercepted fallbackRaises =>
                if fallbackRaises then (Except.error (), 1)
                else (Except.ok true, 1)
            | ClickOutcome.otherError => (Except.ok true, 0)
        else if c.hasSvgText then (Except.ok true, 0)
        else (Except.ok false, 0)

/-- One step of the claiming loop: good is incremented whenever the claim
closure returns without raising (its boolean result is discarded); a raised
exception is printed and the loop moves on. -/
def claimStep (acc : Nat × Nat) (c : Coupon) : Nat × Nat :=
  match claimOne c with
  | (Except.ok _, fb) => (acc.1 + 1, acc.2 + fb)
  | (Except.error _, fb) => (acc.1, acc.2 + fb)

/-- ShopeeWeb.claimCoupon: an absent or empty coupon list returns 0; otherwise
every coupon is processed and the count of non-raising claims is returned
(paired here with the total number of ActionChains fallback attempts). -/
def claimCoupon (coupons : List Coupon) : Nat × Nat :=
  if coupons.isEmpty then (0, 0)
  else coupons.foldl claimStep (0, 0)

/-- The coin-value wait loop of ShopeeWeb.claimCoin.  Each element.text
access reads the live page, modelled as a stream of reads indexed by access
count: the while condition reads index r, the body then reads index r + 1
into last_value.  The fuel argument bounds how many iterations are unrolled;
none means the loop is still running after that many iterations. -/
def coinWaitLoop (text : Nat → String) : Nat → Nat × String → Option String
  | 0, _ => none
  | n + 1, (r, last) =>
      if text r = last then some last
      else coinWaitLoop text n (r + 2, text (r + 1))

/-- ShopeeWeb.maxCoupons. -/
def maxCoupons : Int := 5

/-- ShopeeWeb.repeatTimes = int(scrollPeriod / (scrollPause * scrollTimes))
 = int(5 / (0.5 * 2)) = 5. -/
def repeatTimes : Nat := 5

/-- The claim-count loop of ShopeeWeb.execClaimCoupon.  founds gives the
value claimCoupon returns on each pass; the state is the pass index, found,
last_found (initially -1, hence an Int) and the repeat counter.  none means
the loop is still running after the given number of iterations. -/
def couponLoop (founds : Nat → Nat) :
    Nat → Nat → Int → Int → Nat → Option Int
  | 0, _, _, _, _ => none
  | n + 1, i, found, last_found, rep =>
      if (maxCoupons ≤ 0 ∨ found < maxCoupons) ∧
         (found ≠ last_found ∨ rep < repeatTimes) then
        if (founds i : Int) = last_found then
          couponLoop founds n (i + 1) (founds i : Int) last_found (rep + 1)
        else couponLoop founds n (i + 1) (founds i : Int) (founds i : Int) 0
      else some found

/-- How a top-level flow terminated. -/
inductive ExitKind where
  | normal
  | exited
  | raised
deriving DecidableEq, Repr

/-- Outcome of checkSMS inside Crawler.run: the SMS stage was not needed (or
its prompt never appeared), the code was accepted, or it failed (in which
case checkSMS closes the driver and exits). -/
inductive SmsOutcome where
  | notNeeded
  | ok
  | failed
deriving DecidableEq, Repr

/-- Environment of one Crawler.run execution: whether the initial navigation
raises, and the outcome of each login probe.  checkPopModal, loginByCookie,
saveCookie and the interior of clickCoin trap all their exceptions, so they
need no environment entry; clickCoin closes the driver itself on an error,
and otherwise run reaches its final close, so the tail of the flow closes the
driver in every case. -/
structure RunEnv where
  navHomeRaises : Bool
  cookieLoginOk : Bool
  passModalOk : Bool
  passCredsOk : Bool
  passLoginOk : Bool
  sms : SmsOutcome
  smsLoginOk : Bool
deriving DecidableEq, Repr

/-- Observable outcome of one Crawler.run execution. -/
structure RunResult where
  exit : ExitKind
  driverClosed : Bool
  loginByPassCalled : Bool
  credsSubmitted : Bool
deriving DecidableEq, Repr

/-- Crawler.run.  The initial getURL is not wrapped in any handler, so an
exception there escapes before any close.  Afterwards: a successful cookie
login goes straight to saveCookie, clickCoin and close; otherwise loginByPass
runs (closing and exiting on either of its failure paths), then checkSMS
(closing and exiting on a failed code), then a final checkLogin whose failure
branch also closes; every one of those paths ends in Crawler.close, which
closes the driver and calls sys.exit. -/
def crawlerRun (env : RunEnv) : RunResult :=
  if env.navHomeRaises then
    { exit := ExitKind.raised, driverClosed := false,
      loginByPassCalled := false, credsSubmitted := false }
  else if env.cookieLoginOk then
    { exit := ExitKind.exited, driverClosed := true,
      loginByPassCalled := false, credsSubmitted := false }
  else if !env.passModalOk then
    { exit := ExitKind.exited, driverClosed := true,
      loginByPassCalled := true, credsSubmitted := false }
  else if !env.passCredsOk then
    { exit := ExitKind.exited, driverClosed := true,
      loginByPassCalled := true, credsSubmitted := true }
  else if env.passLoginOk then
    { exit := ExitKind.exited, driverClosed := true,
      loginByPassCalled := true, credsSubmitted := true }
  else
    match env.sms with
    | SmsOutcome.failed =>
        { exit := ExitKind.exited, driverClosed := true,
          loginByPassCalled := true, credsSubmitted := true }
    | _ =>
        if env.smsLoginOk then
          { exit := ExitKind.exited, driverClosed := true,
            loginByPassCalled := true, credsSubmitted := true }
        else
          { exit := ExitKind.exited, driverClosed := true,
            loginByPassCalled := true, credsSubmitted := true }

/-- Outcome of a context-managed or try/finally flow. -/
structure FlowResult where
  exit : ExitKind
  driverClosed : Bool
deriving DecidableEq, Repr

/-- The ShopeeWeb.context contextmanager as used by execClaimCoin and
execClaimCoupon: login and the with-body both run inside try, and the finally
clause quits the driver on every path. -/
def shopeeContextFlow (loginRaises bodyRaises : Bool) : FlowResult :=
  if loginRaises then { exit := ExitKind.raised, driverClosed := true }
  else if bodyRaises then { exit := ExitKind.raised, driverClosed := true }
  else { exit := ExitKind.normal, driverClosed := true }

/-- ShopeeWeb.execListSales: listSales inside try, driver.quit in finally. -/
def execListSalesFlow (bodyRaises : Bool) : FlowResult :=
  if bodyRaises then { exit := ExitKind.raised, driverClosed := true }
  else { exit := ExitKind.normal, driverClosed := true }

/-- MomoWeb.execDailyTask: dailyTask inside try, driver.quit in finally. -/
def momoExecDailyTaskFlow (bodyRaises : Bool) : FlowResult :=
  if bodyRaises then { exit := ExitKind.raised, driverClosed := true }
  else { exit := ExitKind.normal, driverClosed := true }

/-- ShopeeWeb.login: preload the cookie, navigate, and probe for the avatar;
on success save the cookie and return True with no manual-login prompt;
otherwise prompt the operator and probe again.  The pair returned is
(login result, whether the manual prompt was used); no credentials are ever
submitted by this method. -/
def shopeeLogin (wait1 wait2 : Bool) : Bool × Bool :=
  if wait1 then (true, false)
  else if wait2 then (true, true)
  else (false, true)

/-- Handles reachable through the operations of the program: construction by
__init__, re-targeting by reset, reset_condition, reinit and spawn, and
binding of a driver-resolved WebElement through bind_result, which calls
spawn_from with an element produced by a wait or find lookup. -/
inductive ReachableHandle : BoundElement → Prop where
  | init (d : Nat) (m t : String) (c : Cond) (tmo : Nat) (msg : String)
      (tf : Option Policy) :
      ReachableHandle (BoundElement.init d m t c tmo msg tf)
  | reset (e : BoundElement) (d : Nat) (m t : String) :
      ReachableHandle e → ReachableHandle (e.reset d m t)
  | reset_condition (e : BoundElement) (c : Cond) (tmo : Nat) (msg : String)
      (tf : Option Policy) :
      ReachableHandle e → ReachableHandle (e.reset_condition c tmo msg tf)
  | reinit (e : BoundElement) (t : String) (m : Option String) (d : Option Nat)
      (c : Option Cond) (tmo : Option Nat) (msg : Option String)
      (tf : Option Policy) :
      ReachableHandle e → ReachableHandle (e.reinit t m d c tmo msg tf)
  | spawn (e : BoundElement) (t : String) (m : Option String) (d : Option Nat)
      (c : Option Cond) (tmo : Option Nat) (msg : Option String)
      (tf : Option Policy) :
      ReachableHandle e → ReachableHandle (e.spawn t m d c tmo msg tf)
  | spawnFromNone (e : BoundElement) :
      ReachableHandle e → ReachableHandle (e.spawn_from none)
  | bindResult (e : BoundElement) (eid : Nat) :
      ReachableHandle e → ReachableHandle (e.spawn_from (some eid))

/-- Claim C4: spawn never carries over a previously resolved element
reference: for every handle, bound or not, the handle returned by spawn is
unbound and keeps no WebElement identifier, so its first wait or find use
re-resolves against the driver. -/
theorem spawn_always_unbound (e : BoundElement) (t : String) (m : Option String)
    (d : Option Nat) (c : Option Cond) (tmo : Option Nat) (msg : Option String)
    (tf : Option Policy) :
    (e.spawn t m d c tmo msg tf).bound = false ∧
    (e.spawn t m d c tmo msg tf).elemId = none :=
  ⟨rfl, rfl⟩

/-- Concrete handle used in counterexamples: built with the default
constructor arguments of BoundElement (timeout 5, empty message, no trap
function). -/
def e8 : BoundElement :=
  BoundElement.init 1 ("css selector") ("div.a") Cond.presenceOne 5 ("msg") none

/-- Claim C8 counterexample: supplying the override timeout = 0 to spawn does
not override the field, because reinit guards every optional argument with a
Python truthiness test and 0 is falsy; the spawned handle keeps the source
timeout 5. -/
theorem spawn_falsy_override_ignored :
    (e8.spawn ("div.b") none none none (some 0) none none).timeout = 5 ∧
    (e8.spawn ("div.b") none none none (some 0) none none).timeout ≠ 0 := by
  constructor <;> decide

/-- Claim C8 (amended): spawn copies every field from the source handle; a
field is replaced by the overriding value only when that value is supplied
AND truthy (non-empty string, non-zero integer, non-None object); falsy
supplied overrides are ignored and the source value kept; the target
argument alone is always installed. -/
theorem spawn_copies_fields (e : BoundElement) (t : String) (m : Option String)
    (d : Option Nat) (c : Option Cond) (tmo : Option Nat) (msg : Option String)
    (tf : Option Policy) :
    (e.spawn t m d c tmo msg tf).target = t ∧
    (e.spawn t m d c tmo msg tf).method = pyKeepStr e.method m ∧
    (e.spawn t m d c tmo msg tf).driver = pyKeepObj e.driver d ∧
    (e.spawn t m d c tmo msg tf).condition = pyKeepObj e.condition c ∧
    (e.spawn t m d c tmo msg tf).timeout = pyKeepNat e.timeout tmo ∧
    (e.spawn t m d c tmo msg tf).message = pyKeepStr e.message msg ∧
    (e.spawn t m d c tmo msg tf).trapFunction = pyKeepTrap e.trapFunction tf :=
  ⟨rfl, rfl, rfl, rfl, rfl, rfl, rfl⟩

/-- Claim C10: every constructor and re-targeting operation (init, reset,
reset_condition, reinit, spawn, and spawn_from without an element) leaves
the handle unbound; only spawn_from with an already-resolved element sets
bound, installing exactly that element identifier; hence every reachable
handle with bound = true carries a driver-resolved element reference. -/
theorem bound_flag_invariant :
    (∀ (d : Nat) (m t : String) (c : Cond) (tmo : Nat) (msg : String)
        (tf : Option Policy), (BoundElement.init d m t c tmo msg tf).bound = false) ∧
    (∀ (e : BoundElement) (d : Nat) (m t : String), (e.reset d m t).bound = false) ∧
    (∀ (e : BoundElement) (c : Cond) (tmo : Nat) (msg : String) (tf : Option Policy),
        (e.reset_condition c tmo msg tf).bound = false) ∧
    (∀ (e : BoundElement) (t : String) (m : Option String) (d : Option Nat)
        (c : Option Cond) (tmo : Option Nat) (msg : Option String) (tf : Option Policy),
        (e.reinit t m d c tmo msg tf).bound = false) ∧
    (∀ (e : BoundElement) (t : String) (m : Option String) (d : Option Nat)
        (c : Option Cond) (tmo : Option Nat) (msg : Option String) (tf : Option Policy),
        (e.spawn t m d c tmo msg tf).bound = false) ∧
    (∀ (e : BoundElement), (e.spawn_from none).bound = false) ∧
    (∀ (e : BoundElement) (eid : Nat), (e.spawn_from (some eid)).bound = true ∧
        (e.spawn_from (some eid)).elemId = some eid) ∧
    (∀ (h : BoundElement), ReachableHandle h → h.bound = true →
        h.elemId.isSome = true) := by
  refine ⟨fun _ _ _ _ _ _ _ => rfl, fun _ _ _ _ => rfl, fun _ _ _ _ _ => rfl,
    fun _ _ _ _ _ _ _ _ => rfl, fun _ _ _ _ _ _ _ _ => rfl, fun _ => rfl,
    fun _ _ => ⟨rfl, rfl⟩, ?_⟩
  intro h hr
  induction hr with
  | init d m t c tmo msg tf => exact fun hb => Bool.noConfusion hb
  | reset e d m t _ _ => exact fun hb => Bool.noConfusion hb
  | reset_condition e c tmo msg tf _ _ => exact fun hb => Bool.noConfusion hb
  | reinit e t m d c tmo msg tf _ _ => exact fun hb => Bool.noConfusion hb
  | spawn e t m d c tmo msg tf _ _ => exact fun hb => Bool.noConfusion hb
  | spawnFromNone e _ _ => exact fun hb => Bool.noConfusion hb
  | bindResult e eid _ _ => exact fun _ => rfl

/-- Witness for claim C10: a concrete bound handle obtained by binding a
resolved element onto a freshly constructed handle carries an element
identifier. -/
theorem bound_flag_invariant_witness :
    ((BoundElement.init 0 ("css selector") ("div.x") Cond.presenceOne 5 ("")
        none).spawn_from (some 3)).elemId.isSome = true :=
  bound_flag_invariant.2.2.2.2.2.2.2
    ((BoundElement.init 0 ("css selector") ("div.x") Cond.presenceOne 5 ("")
        none).spawn_from (some 3))
    (ReachableHandle.bindResult _ 3
      (ReachableHandle.init 0 ("css selector") ("div.x") Cond.presenceOne 5 ("")
        none))
    rfl

/-- Concrete handle with no trap function anywhere, as produced by the
BoundElement constructor defaults. -/
def eNoTrap : BoundElement :=
  BoundElement.init 0 ("css selector") ("div.absent") Cond.presenceOne 5 ("") none

/-- Claim C1 counterexample: a find on a handle whose trapFunction is None,
with no caller-supplied trap, raises NoSuchElement for a query matching
nothing instead of returning a trapped False: the absence failure propagates
past the fault-trapping layer under the default configuration. -/
theorem find_untrapped_raises :
    BoundElement.find eNoTrap none none none (fun _ _ => none) =
      Except.error Fault.noSuchElement :=
  rfl

/-- Helper: the trapMethod wrapper passes a successful result through
untouched whatever trap functions are in scope. -/
theorem trapCall_ok (a b : Option Policy) (r : PyVal) :
    trapCall a b (Except.ok r) = Except.ok r := by
  cases a <;> cases b <;> rfl

/-- Claim C1 (amended): an element-absence failure from find is converted to
False only when a trap policy handling it is in effect, either stored on the
handle or supplied by the caller; without one the failure propagates.
find_all returns an empty sequence for a query matching nothing and never
raises for absence, and the Crawler get* methods always convert
NoSuchElement to False through guardFindElement. -/
theorem find_trap_behavior :
    (∀ (e : BoundElement) (t m : Option String) (env : String → String → Option Nat),
        e.trapFunction = some Policy.trapNoSuchElement →
        (∀ a b, env a b = none) →
        BoundElement.find e none t m env = Except.ok (PyVal.bool false)) ∧
    (∀ (e : BoundElement) (t m : Option String) (env : String → String → Option Nat),
        (∀ a b, env a b = none) →
        BoundElement.find e (some Policy.trapNoSuchElement) t m env =
          Except.ok (PyVal.bool false)) ∧
    (∀ (e : BoundElement) (ct : Option Policy) (t m : Option String),
        BoundElement.find_all e ct t m (fun _ _ => []) =
          Except.ok (PyVal.handles [])) ∧
    (∀ (env : String → Option Nat) (sel : String), env sel = none →
        Crawler.getByClass env sel = Except.ok (PyVal.bool false)) ∧
    (∀ (env : String → List Nat) (sel : String),
        Crawler.getAllByClass env sel = Except.ok (PyVal.elems (env sel))) := by
  refine ⟨?_, ?_, ?_, ?_, ?_⟩
  · intro e t m env he henv
    simp [BoundElement.find, BoundElement.findRaw, trapCall, he, henv, Policy.run]
  · intro e t m env henv
    simp [BoundElement.find, BoundElement.findRaw, trapCall, henv, Policy.run]
  · intro e ct t m
    simpa [BoundElement.find_allRaw, BoundElement.bind_result] using
      trapCall_ok ct e.trapFunction (PyVal.handles [])
  · intro env sel h
    simp [Crawler.getByClass, guardFind, h]
  · intro env sel
    rfl

/-- Concrete handle carrying the NoSuchElement-handling trap function. -/
def eWithTrap : BoundElement :=
  BoundElement.init 0 ("css selector") ("div.absent") Cond.presenceOne 5 ("")
    (some Policy.trapNoSuchElement)

/-- Witness for claim C1: with the NoSuchElement trap stored on the handle, a
query matching nothing yields False, and an absent element under a Crawler
get method yields False. -/
theorem find_trap_behavior_witness :
    BoundElement.find eWithTrap none none none (fun _ _ => none) =
      Except.ok (PyVal.bool false) ∧
    Crawler.getByClass (fun _ => none) ("div.x") = Except.ok (PyVal.bool false) :=
  ⟨find_trap_behavior.1 eWithTrap none none (fun _ _ => none) rfl (fun _ _ => rfl),
   find_trap_behavior.2.2.2.1 (fun _ => none) ("div.x") rfl⟩

/-- Helper: each trap function re-raises the identical fault when the fault
kind is not among those it handles. -/
theorem Policy.run_unhandled (p : Policy) (f : Fault)
    (h : Policy.handles p f = false) : Policy.run p f = Except.error f := by
  cases p <;> cases f <;> simp_all [Policy.handles, Policy.run]

/-- Claim C7: for every operation executed under a trap policy, a fault not
of a kind the policy handles is re-raised unchanged, whether the policy was
supplied by the caller or discovered on the receiver: the fault-trapping
executor never returns a fallback value for an unhandled fault kind. -/
theorem unhandled_fault_reraised :
    (∀ (p : Policy) (rt : Option Policy) (f : Fault), Policy.handles p f = false →
        trapCall (some p) rt (Except.error f) = Except.error f) ∧
    (∀ (p : Policy) (f : Fault), Policy.handles p f = false →
        trapCall none (some p) (Except.error f) = Except.error f) := by
  constructor
  · intro p rt f h
    simpa [trapCall] using Policy.run_unhandled p f h
  · intro p f h
    simpa [trapCall] using Policy.run_unhandled p f h

/-- Witness for claim C7: under the Timeout-only policy a NoSuchElement fault
propagates to the caller exactly as raised. -/
theorem unhandled_fault_reraised_witness :
    trapCall (some Policy.trapTimeout) none (Except.error Fault.noSuchElement) =
      Except.error Fault.noSuchElement :=
  unhandled_fault_reraised.1 Policy.trapTimeout none Fault.noSuchElement rfl

/-- Helper: one non-delimited loop step of catText. -/
theorem catTextAux_false_cons (t : String) (rest : List String) (acc : String) :
    catTextAux false (t :: rest) acc =
      catTextAux false rest (acc ++ pyStripNewlines t) :=
  rfl

/-- Helper: with every stripped element text empty and no delimiting, the
catText loop leaves the accumulator empty. -/
theorem catTextAux_false_all_empty :
    ∀ (es : List String), (∀ e ∈ es, pyStripNewlines e = "") →
      catTextAux false es "" = Except.ok ""
  | [], _ => rfl
  | t :: rest, h => by
      have ht : pyStripNewlines t = "" := h t (List.mem_cons_self t rest)
      rw [catTextAux_false_cons, ht]
      have hA : (("" : String) ++ "") = "" := rfl
      rw [hA]
      exact catTextAux_false_all_empty rest (fun x hx => h x (List.mem_cons_of_mem t hx))

/-- Helper: with delimiting on, an empty first stripped text makes the loop
index the empty string and raise at once. -/
theorem catTextAux_true_empty_first (t : String) (rest : List String)
    (ht : pyStripNewlines t = "") :
    catTextAux true (t :: rest) "" = Except.error PyErr.indexError := by
  have hA : (("" : String) ++ pyStripNewlines t) = "" := by rw [ht]; rfl
  simp only [catTextAux, hA]
  rw [show strLast "" = Except.error PyErr.indexError from rfl]
  simp

/-- Helper: catText raises IndexError whenever every element contributes an
empty newline-stripped text. -/
theorem catText_all_empty (es : List String) (d : Bool)
    (h : ∀ e ∈ es, pyStripNewlines e = "") :
    catText es d = Except.error PyErr.indexError := by
  cases d with
  | false =>
      rw [catText, catTextAux_false_all_empty es h]
      rfl
  | true =>
      cases es with
      | nil => rfl
      | cons t rest =>
          rw [catText, catTextAux_true_empty_first t rest
            (h t (List.mem_cons_self t rest))]

/-- Claim C9: catText is not total on its stated input: on an empty element
sequence, or on elements whose concatenated newline-stripped text is empty,
it indexes the empty string at -1 and raises IndexError instead of returning
the empty string; it returns normally only when the accumulated text is
non-empty, that is, some element contributed a non-empty stripped text. -/
theorem catText_not_total :
    (catText [] false = Except.error PyErr.indexError) ∧
    (catText [] true = Except.error PyErr.indexError) ∧
    (catText ["", ""] false = Except.error PyErr.indexError) ∧
    (∀ (es : List String) (d : Bool), (∀ e ∈ es, pyStripNewlines e = "") →
        catText es d = Except.error PyErr.indexError) ∧
    (∀ (es : List String) (d : Bool) (s : String), catText es d = Except.ok s →
        ∃ e ∈ es, pyStripNewlines e ≠ "") := by
  refine ⟨rfl, rfl, by decide, catText_all_empty, ?_⟩
  intro es d s hok
  by_contra hcon
  push_neg at hcon
  have hall : ∀ e ∈ es, pyStripNewlines e = "" := fun e he => hcon e he
  rw [catText_all_empty es d hall] at hok
  exact Except.noConfusion hok

/-- Witness for claim C9: the all-empty case raises with delimiting on as
well, and a normally returning call indeed has a non-empty contribution. -/
theorem catText_not_total_witness :
    (catText ["", ""] true = Except.error PyErr.indexError) ∧
    (∃ e ∈ [("a" : String)], pyStripNewlines e ≠ "") :=
  ⟨catText_not_total.2.2.2.1 ["", ""] true (by decide),
   catText_not_total.2.2.2.2 [("a" : String)] false ("a") (by decide)⟩

/-- A coupon tile whose guarded lookups all succeed and whose button click
goes through normally. -/
def normalCoupon : Coupon :=
  ⟨false, true, true, [("x")], true, false, ClickOutcome.ok, false⟩

/-- A coupon tile whose button click raises ElementClickIntercepted; the
parameter says whether the ActionChains fallback click raises as well. -/
def blockedCoupon (fallbackRaises : Bool) : Coupon :=
  ⟨false, true, true, [("x")], true, false,
    ClickOutcome.intercepted fallbackRaises, false⟩

/-- Claim C6 counterexample: in a batch of 2 coupons where exactly one click
raises ElementClickIntercepted and the ActionChains fallback succeeds, the
batch counts 2 claims, not K - 1 = 1: the blocked item is counted as
claimed, not skipped (one fallback attempt is made). -/
theorem blocked_coupon_counted_as_claimed :
    claimCoupon [normalCoupon, blockedCoupon false] = (2, 1) ∧
    (claimCoupon [normalCoupon, blockedCoupon false]).1 ≠ 1 := by
  constructor <;> decide

/-- Helper: folding the claiming loop over coupons whose claim closure
returns without raising and without any fallback attempt adds their count to
the accumulator. -/
theorem claimFold_normal :
    ∀ (cs : List Coupon) (acc : Nat × Nat),
      (∀ c ∈ cs, claimOne c = (Except.ok true, 0)) →
      cs.foldl claimStep acc = (acc.1 + cs.length, acc.2)
  | [], acc, _ => by simp
  | c :: rest, acc, h => by
      have hc : claimOne c = (Except.ok true, 0) := h c (List.mem_cons_self c rest)
      have hstep : claimStep acc c = (acc.1 + 1, acc.2) := by
        simp [claimStep, hc]
      rw [List.foldl_cons, hstep,
        claimFold_normal rest (acc.1 + 1, acc.2)
          (fun x hx => h x (List.mem_cons_of_mem c hx))]
      have hlen : (c :: rest).length = rest.length + 1 := rfl
      rw [hlen]
      simp only [Prod.mk.injEq]
      refine ⟨by omega, ?_⟩
      trivial

/-- Claim C6 (amended): when exactly one coupon in a batch raises
ElementClickIntercepted on its button click, exactly one ActionChains
fallback is attempted for that item and the loop continues over the rest:
the batch is never aborted.  If the fallback succeeds the item counts as
claimed, giving K claims; the item is skipped, giving K - 1 claims, only
when the fallback itself raises. -/
theorem blocked_coupon_batch (pre post : List Coupon) (fb : Bool)
    (hpre : ∀ c ∈ pre, claimOne c = (Except.ok true, 0))
    (hpost : ∀ c ∈ post, claimOne c = (Except.ok true, 0)) :
    claimCoupon (pre ++ blockedCoupon fb :: post) =
      (pre.length + post.length + (if fb then 0 else 1), 1) := by
  have hne : (pre ++ blockedCoupon fb :: post).isEmpty = false := by
    cases pre <;> rfl
  have hblocked : claimOne (blockedCoupon fb) =
      ((if fb then Except.error () else Except.ok true), 1) := by
    cases fb <;> decide
  have hbstep : ∀ acc : Nat × Nat, claimStep acc (blockedCoupon fb) =
      (acc.1 + (if fb then 0 else 1), acc.2 + 1) := by
    intro acc
    cases fb <;> simp [claimStep, hblocked]
  rw [claimCoupon, hne]
  simp only [Bool.false_eq_true, if_false]
  rw [List.foldl_append, List.foldl_cons,
    claimFold_normal pre (0, 0) hpre, hbstep,
    claimFold_normal post _ hpost]
  simp only [Prod.mk.injEq]
  cases fb <;> (simp; try omega)

/-- Witness for claim C6: a concrete batch of 3 coupons with the middle one
blocked and its fallback also raising yields 2 claims and one fallback
attempt. -/
theorem blocked_coupon_batch_witness :
    claimCoupon [normalCoupon, blockedCoupon true, normalCoupon] = (2, 1) := by
  have h := blocked_coupon_batch [normalCoupon] [normalCoupon] true
    (by decide) (by decide)
  simpa using h

/-- Helper: one-step unfolding of the coin-value wait loop. -/
theorem coinWaitLoop_succ (text : Nat → String) (n r : Nat) (last : String) :
    coinWaitLoop text (n + 1) (r, last) =
      if text r = last then some last
      else coinWaitLoop text n (r + 2, text (r + 1)) :=
  rfl

/-- Helper: one-step unfolding of the claim-count loop. -/
theorem couponLoop_succ (founds : Nat → Nat) (n i : Nat)
    (found last_found : Int) (rep : Nat) :
    couponLoop founds (n + 1) i found last_found rep =
      if (maxCoupons ≤ 0 ∨ found < maxCoupons) ∧
         (found ≠ last_found ∨ rep < repeatTimes) then
        if (founds i : Int) = last_found then
          couponLoop founds n (i + 1) (founds i : Int) last_found (rep + 1)
        else couponLoop founds n (i + 1) (founds i : Int) (founds i : Int) 0
      else some found :=
  rfl

/-- Helper: whatever value the coin-value wait loop returns was sampled from
the page: the loop can only stop by observing a read equal to the stored
previous one, which it returns. -/
theorem coinWaitLoop_some_sampled (text : Nat → String) :
    ∀ (n : Nat) (st : Nat × String) (v : String),
      coinWaitLoop text n st = some v → ∃ i, text i = v := by
  intro n
  induction n with
  | zero =>
      intro st v h
      obtain ⟨r, last⟩ := st
      exact Option.noConfusion h
  | succ n ih =>
      intro st v h
      obtain ⟨r, last⟩ := st
      rw [coinWaitLoop_succ] at h
      by_cases hc : text r = last
      · rw [if_pos hc] at h
        exact ⟨r, by rw [hc]; exact Option.some.inj h⟩
      · rw [if_neg hc] at h
        exact ih _ v h

/-- Helper: with a first read distinct from the initial empty last value and
every later read distinct from its predecessor, the coin-value wait loop is
still running after any number of iterations. -/
theorem coinWaitLoop_changing_none (text : Nat → String) (h0 : text 0 ≠ "")
    (h : ∀ r, text (r + 1) ≠ text r) :
    ∀ (n : Nat) (st : Nat × String),
      (st = (0, "") ∨ ∃ j, st = (2 * j + 2, text (2 * j + 1))) →
      coinWaitLoop text n st = none := by
  intro n
  induction n with
  | zero =>
      intro st _
      obtain ⟨r, last⟩ := st
      rfl
  | succ n ih =>
      intro st hst
      rcases hst with h1 | ⟨j, h2⟩
      · subst h1
        rw [coinWaitLoop_succ, if_neg h0]
        exact ih _ (Or.inr ⟨0, rfl⟩)
      · subst h2
        rw [coinWaitLoop_succ, if_neg (h (2 * j + 1))]
        refine ih _ (Or.inr ⟨j + 1, ?_⟩)
        have e1 : 2 * j + 2 + 2 = 2 * (j + 1) + 2 := by omega
        have e2 : 2 * j + 2 + 1 = 2 * (j + 1) + 1 := by omega
        rw [e1, e2]

/-- Helper: after the first pass, the claim-count loop lives in states with
found = last_found and repeat counter 0; with a per-pass count that always
changes and stays below maxCoupons, it runs forever. -/
theorem couponLoop_aux (founds : Nat → Nat)
    (hch : ∀ i, founds (i + 1) ≠ founds i) (hlt : ∀ i, founds i < 5) :
    ∀ (n k : Nat),
      couponLoop founds n (k + 1) (founds k : Int) (founds k : Int) 0 = none := by
  intro n
  induction n with
  | zero => intro k; rfl
  | succ n ih =>
      intro k
      have hcond : (maxCoupons ≤ 0 ∨ (founds k : Int) < maxCoupons) ∧
          ((founds k : Int) ≠ (founds k : Int) ∨ 0 < repeatTimes) := by
        constructor
        · right
          have hk : ((founds k : Int) < (5 : Int)) := by exact_mod_cast hlt k
          simpa [maxCoupons] using hk
        · right
          norm_num [repeatTimes]
      have hne2 : ¬ ((founds (k + 1) : Int) = (founds k : Int)) := by
        intro hc
        exact hch k (by exact_mod_cast hc)
      rw [couponLoop_succ, if_pos hcond, if_neg hne2]
      exact ih (k + 1)

/-- Helper: from the initial state (found 0, last_found -1, repeat 0), an
always-changing per-pass count below maxCoupons makes the claim-count loop
run forever. -/
theorem couponLoop_changing_none (founds : Nat → Nat)
    (hch : ∀ i, founds (i + 1) ≠ founds i) (hlt : ∀ i, founds i < 5) :
    ∀ n, couponLoop founds n 0 0 (-1) 0 = none := by
  intro n
  cases n with
  | zero => rfl
  | succ n =>
      have hcond : (maxCoupons ≤ 0 ∨ (0 : Int) < maxCoupons) ∧
          ((0 : Int) ≠ (-1 : Int) ∨ 0 < repeatTimes) := by
        constructor
        · right; norm_num [maxCoupons]
        · left; norm_num
      have hne2 : ¬ ((founds 0 : Int) = (-1 : Int)) := by
        intro hc
        have hnn : (0 : Int) ≤ (founds 0 : Int) := Int.natCast_nonneg (founds 0)
        omega
      rw [couponLoop_succ, if_pos hcond, if_neg hne2]
      exact couponLoop_aux founds hch hlt n 0

/-- A string of n letters. -/
def aRun (n : Nat) : String := String.mk (List.replicate n ('a'))

/-- Helper: the length of aRun n is n. -/
theorem aRun_len (n : Nat) : (aRun n).length = n := by
  simp [aRun, String.length]

/-- A coin-value text stream in which every read is distinct: read i shows a
string of i + 1 letters. -/
def textDistinct : Nat → String := fun i => aRun (i + 1)

/-- Helper: consecutive reads of textDistinct always differ. -/
theorem textDistinct_ne (r : Nat) : textDistinct (r + 1) ≠ textDistinct r := by
  intro h
  have hlen := congrArg String.length h
  rw [show textDistinct (r + 1) = aRun (r + 2) from rfl,
    show textDistinct r = aRun (r + 1) from rfl, aRun_len, aRun_len] at hlen
  omega

/-- Helper: the first read of textDistinct is not the initial empty string. -/
theorem textDistinct_zero_ne : textDistinct 0 ≠ "" := by decide

/-- A per-pass claim count that alternates between 1 and 2: it changes on
every pass and never reaches maxCoupons. -/
def altFounds : Nat → Nat := fun i => if i % 2 = 0 then 1 else 2

/-- Helper: altFounds changes on every pass. -/
theorem altFounds_ne (i : Nat) : altFounds (i + 1) ≠ altFounds i := by
  intro h
  simp only [altFounds] at h
  split_ifs at h <;> omega

/-- Helper: altFounds stays below maxCoupons. -/
theorem altFounds_lt (i : Nat) : altFounds i < 5 := by
  simp only [altFounds]
  split_ifs <;> norm_num

/-- Claim C2 counterexample: with a coin value that differs on every read,
the claimCoin wait loop is still running after any number of iterations, and
with a per-pass claim count that alternates between 1 and 2 the
execClaimCoupon loop is still running after any number of passes: neither
loop has an iteration cap, so neither stops after maxIterations iterations. -/
theorem convergence_loops_never_capped :
    (∀ n, coinWaitLoop textDistinct n (0, "") = none) ∧
    (∀ n, couponLoop altFounds n 0 0 (-1) 0 = none) := by
  constructor
  · intro n
    exact coinWaitLoop_changing_none textDistinct textDistinct_zero_ne
      textDistinct_ne n (0, "") (Or.inl rfl)
  · intro n
    exact couponLoop_changing_none altFounds altFounds_ne altFounds_lt n

/-- Claim C2 (amended): the convergence loops have no iteration cap.  The
coin-value wait loop in claimCoin stops only by observing a value equal to
the previously observed one, returning a value it sampled; when every fresh
read differs from the previous one it never terminates.  The claim-count
loop in execClaimCoupon never terminates when the per-pass claim count
changes on every pass while staying below maxCoupons. -/
theorem convergence_loops_stop_only_on_repeat :
    (∀ (text : Nat → String) (n : Nat) (st : Nat × String) (v : String),
        coinWaitLoop text n st = some v → ∃ i, text i = v) ∧
    (∀ (text : Nat → String), text 0 ≠ "" → (∀ r, text (r + 1) ≠ text r) →
        ∀ n, coinWaitLoop text n (0, "") = none) ∧
    (∀ (founds : Nat → Nat), (∀ i, founds (i + 1) ≠ founds i) →
        (∀ i, founds i < 5) → ∀ n, couponLoop founds n 0 0 (-1) 0 = none) := by
  refine ⟨fun text => coinWaitLoop_some_sampled text, ?_, ?_⟩
  · intro text h0 h n
    exact coinWaitLoop_changing_none text h0 h n (0, "") (Or.inl rfl)
  · intro founds hch hlt n
    exact couponLoop_changing_none founds hch hlt n

/-- Witness for claim C2: a constant empty coin text terminates at once with
a sampled value, and the changing streams keep both loops running past 3
iterations. -/
theorem convergence_loops_stop_only_on_repeat_witness :
    (∃ i, (fun _ : Nat => ("" : String)) i = "") ∧
    coinWaitLoop textDistinct 3 (0, "") = none ∧
    couponLoop altFounds 3 0 0 (-1) 0 = none :=
  ⟨convergence_loops_stop_only_on_repeat.1 (fun _ => ("")) 1 (0, "") ("") rfl,
   convergence_loops_stop_only_on_repeat.2.1 textDistinct textDistinct_zero_ne
     textDistinct_ne 3,
   convergence_loops_stop_only_on_repeat.2.2 altFounds altFounds_ne
     altFounds_lt 3⟩

/-- An environment in which the initial navigation of Crawler.run raises. -/
def envNavCrash : RunEnv :=
  ⟨true, false, true, true, false, SmsOutcome.notNeeded, false⟩

/-- Claim C3 counterexample: when the initial navigation of Crawler.run
raises, the flow terminates via an unrecovered exception with the driver
never closed: the release-on-all-paths guarantee fails for Crawler.run. -/
theorem crawler_run_leaks_driver :
    (crawlerRun envNavCrash).driverClosed = false ∧
    (crawlerRun envNavCrash).exit = ExitKind.raised := by
  constructor <;> rfl

/-- Claim C3 (amended): the flows wrapped in try/finally or the context
manager (execClaimCoin and execClaimCoupon via ShopeeWeb.context,
execListSales, MomoWeb.execDailyTask) close the driver on every exit path,
normal or exceptional; Crawler.run closes the driver on every exit path
except when the initial navigation raises. -/
theorem driver_release_paths :
    (∀ env : RunEnv, env.navHomeRaises = false →
        (crawlerRun env).driverClosed = true) ∧
    (∀ lr br : Bool, (shopeeContextFlow lr br).driverClosed = true) ∧
    (∀ br : Bool, (execListSalesFlow br).driverClosed = true) ∧
    (∀ br : Bool, (momoExecDailyTaskFlow br).driverClosed = true) := by
  refine ⟨?_, ?_, ?_, ?_⟩
  · intro env h
    obtain ⟨nav, c1, pm, pc, pl, sms, sl⟩ := env
    cases nav with
    | true => exact Bool.noConfusion h
    | false =>
        cases c1 <;> cases pm <;> cases pc <;> cases pl <;> cases sms <;>
          cases sl <;> rfl
  · intro lr br
    cases lr <;> cases br <;> rfl
  · intro br
    cases br <;> rfl
  · intro br
    cases br <;> rfl

/-- Witness for claim C3: a concrete non-raising run of Crawler.run closes
the driver. -/
theorem driver_release_paths_witness :
    (crawlerRun ⟨false, true, true, true, false, SmsOutcome.notNeeded,
        false⟩).driverClosed = true :=
  driver_release_paths.1
    ⟨false, true, true, true, false, SmsOutcome.notNeeded, false⟩ rfl

/-- Claim C5: whenever the stored cookie yields the logged-in indicator (the
first login check succeeds after the cookie is loaded and the page
refreshed), Crawler.run reaches the logged-in continuation without ever
calling loginByPass and without submitting any credential, and ShopeeWeb
login returns success without even prompting for a manual login. -/
theorem cookie_login_skips_credentials :
    (∀ env : RunEnv, env.navHomeRaises = false → env.cookieLoginOk = true →
        (crawlerRun env).loginByPassCalled = false ∧
        (crawlerRun env).credsSubmitted = false ∧
        (crawlerRun env).exit = ExitKind.exited ∧
        (crawlerRun env).driverClosed = true) ∧
    (∀ w2 : Bool, shopeeLogin true w2 = (true, false)) := by
  constructor
  · intro env h1 h2
    obtain ⟨nav, c1, pm, pc, pl, sms, sl⟩ := env
    cases nav with
    | true => exact Bool.noConfusion h1
    | false =>
        cases c1 with
        | false => exact Bool.noConfusion h2
        | true => exact ⟨rfl, rfl, rfl, rfl⟩
  · intro w2
    rfl

/-- Witness for claim C5: a concrete run with a valid cookie never calls
loginByPass, and ShopeeWeb login succeeds with no manual prompt. -/
theorem cookie_login_skips_credentials_witness :
    (crawlerRun ⟨false, true, true, true, true, SmsOutcome.ok,
        true⟩).loginByPassCalled = false ∧
    shopeeLogin true false = (true, false) :=
  ⟨(cookie_login_skips_credentials.1
      ⟨false, true, true, true, true, SmsOutcome.ok, true⟩ rfl rfl).1,
   cookie_login_skips_credentials.2 false⟩
